import Mathlib

/-!
Verification of the quibbler repository's session-agent runtime.

This file gives a shallow embedding, in Lean 4, of the parts of the
repository that the specification talks about:

- the conversation context manager with rolling summarization
  (src/quibbler/iflow_agent.py, class ContextManager);
- the per-session consumer loops (src/quibbler/agent.py, classes
  QuibblerMCP and QuibblerHook; src/quibbler/iflow_agent.py, classes
  IFlowQuibblerMCP and IFlowQuibblerHook);
- the raw Bedrock backend client with its hand-rolled tool-execution
  loop (src/quibbler/clients.py, class BedrockClient);
- the session registries (src/quibbler/mcp_server.py and
  src/quibbler/iflow_hook_server.py, get_or_create_quibbler);
- the feedback display hook (src/quibbler/hook_display.py).

Python exceptions are modelled with an explicit error type and
Except-valued functions; the remote LLM provider, the wall clock and
the file system are modelled as explicit parameters (oracles) so that
the loops become pure, executable Lean functions.
-/

namespace Quibbler

/-- A Python exception value, reduced to its message. -/
structure PyErr where
  msg : String
deriving Repr, DecidableEq

/-! ## Context manager (src/quibbler/iflow_agent.py lines 29-145)

The ContextManager keeps an ordered list of conversation messages, an
optional rolling summary, and a review counter.  Summarization calls the
backend through IFlowClient.simple_query; that call is modelled as an
oracle of type String -> String -> Except PyErr String taking the system
prompt and the user message.
-/

/-- Context threshold constant MAX_MESSAGES_BEFORE_SUMMARY = 15. -/
def MAX_MESSAGES_BEFORE_SUMMARY : Nat := 15

/-- Context threshold constant KEEP_RECENT_MESSAGES = 5. -/
def KEEP_RECENT_MESSAGES : Nat := 5

/-- Mirrors the dataclass ConversationMessage of iflow_agent.py. -/
structure ConversationMessage where
  role : String
  content : String
  timestamp : String
  token_count : Nat
deriving Repr, DecidableEq

/-- Mirrors the dataclass ContextManager of iflow_agent.py. -/
structure ContextManager where
  messages : List ConversationMessage := []
  summary : Option String := none
  total_reviews : Nat := 0
deriving Repr, DecidableEq

/-- ContextManager.add_message.  The timestamp is taken from the wall
clock in the source (datetime.now); here it is an explicit argument.
The token estimate is len(content) // 4. -/
def ContextManager.add_message (cm : ContextManager) (role content ts : String) :
    ContextManager :=
  { cm with
    messages := cm.messages ++
      [{ role := role, content := content, timestamp := ts,
         token_count := content.length / 4 }] }

/-- ContextManager.should_summarize: true when the message count exceeds
MAX_MESSAGES_BEFORE_SUMMARY. -/
def ContextManager.should_summarize (cm : ContextManager) : Bool :=
  cm.messages.length > MAX_MESSAGES_BEFORE_SUMMARY

/-- One line of the old-conversation rendering inside create_summary. -/
def renderOldMessage (m : ConversationMessage) : String :=
  "[" ++ m.timestamp ++ "] " ++ m.role.toUpper ++ ": " ++ m.content

/-- The old_conversation string built inside create_summary. -/
def renderOldConversation (old : List ConversationMessage) : String :=
  String.intercalate "\n\n" (old.map renderOldMessage)

/-- The text standing for the previous summary in the summarization
prompt.  The source uses the Python expression (self.summary or "None"),
whose value is "None" both when the summary is absent and when it is the
empty string (falsy). -/
def previousSummaryText (summary : Option String) : String :=
  match summary with
  | none => "None"
  | some s => if s = "" then "None" else s

/-- The fixed leading part of the summarization prompt. -/
def summaryPromptHead : String :=
  "Summarize this code review conversation history concisely, preserving:\n1. Key issues identified\n2. Patterns or rules learned\n3. Important decisions made\n4. Recurring themes\n\nPrevious summary (if any):\n"

/-- The fixed trailing part of the summarization prompt. -/
def summaryPromptTail : String :=
  "\n\nProvide a concise summary (max 500 tokens) that captures the essential context."

/-- The summary_prompt f-string built inside create_summary. -/
def mkSummaryPrompt (summary : Option String) (old : List ConversationMessage) :
    String :=
  summaryPromptHead ++
    (previousSummaryText summary ++
      ("\n\nNew conversation to summarize:\n" ++
        (renderOldConversation old ++ summaryPromptTail)))

/-- The fixed system prompt passed to client.simple_query. -/
def SUMMARIZER_SYSTEM_PROMPT : String :=
  "You are a precise conversation summarizer for code reviews."

/-- ContextManager.create_summary.  The backend call
client.simple_query(system_prompt, user_message) is the oracle f.  On
success the stored summary becomes the new summary and the stored
messages become the recent tail; an exception from the oracle is caught
and the state is left untouched. -/
def ContextManager.create_summary
    (cm : ContextManager) (f : String → String → Except PyErr String) :
    ContextManager :=
  if cm.should_summarize then
    let old := cm.messages.take (cm.messages.length - KEEP_RECENT_MESSAGES)
    let recent := cm.messages.drop (cm.messages.length - KEEP_RECENT_MESSAGES)
    match f SUMMARIZER_SYSTEM_PROMPT (mkSummaryPrompt cm.summary old) with
    | Except.ok new_summary => { cm with summary := some new_summary, messages := recent }
    | Except.error _ => cm
  else cm

/-- A role/content pair as sent to the chat API. -/
structure ChatMessage where
  role : String
  content : String
deriving Repr, DecidableEq

/-- ContextManager.get_context_messages: the summary, when present and
non-empty (the source tests it for truthiness), is rendered first as a
synthetic system message, followed by the stored messages in order. -/
def ContextManager.get_context_messages (cm : ContextManager) : List ChatMessage :=
  (match cm.summary with
   | some s =>
     if s = "" then []
     else [{ role := "system", content := "CONVERSATION HISTORY SUMMARY:\n" ++ s }]
   | none => []) ++
  cm.messages.map (fun m => { role := m.role, content := m.content })

/-- The proposition that small occurs verbatim inside big. -/
def containsStr (big small : String) : Prop :=
  ∃ p q, big = p ++ (small ++ q)

/-- Concrete test fixture: one conversation message. -/
def sampleMsg : ConversationMessage :=
  { role := "user", content := "x", timestamp := "t0", token_count := 0 }

/-- Concrete test fixture: a context with 16 messages and an existing
summary, which is over the compaction threshold of 15. -/
def sampleCm : ContextManager :=
  { messages := List.replicate 16 sampleMsg, summary := some "S0", total_reviews := 3 }

/-- Concrete test fixture: a summarizer oracle that always raises. -/
def failingSummarizer : String → String → Except PyErr String :=
  fun _ _ => Except.error { msg := "boom" }

/-- Concrete test fixture: a summarizer oracle that always answers S1. -/
def okSummarizer : String → String → Except PyErr String :=
  fun _ _ => Except.ok "S1"

/-! ## Consumer loops (src/quibbler/agent.py lines 258-315)

QuibblerMCP._run_loop and QuibblerHook._run_loop each run a single
asyncio task that repeatedly dequeues the next work item, performs the
backend call for it to completion, resolves or logs the outcome, and
only then dequeues the next item.  The loop bodies are sequential: the
await of the backend call (query plus full consumption of the streamed
response) finishes, successfully or with an exception caught by the
per-item try/except, before the next queue.get() runs.  We embed each
loop as a function from the queue contents (work items numbered in
enqueue order) to the trace of observable events it performs, with the
backend modelled as an oracle from the item number to the collected
response text or a raised exception. -/

/-- Observable events of a consumer loop run. -/
inductive LoopEvent where
  | dequeued (i : Nat)
  | callStart (i : Nat)
  | callEnd (i : Nat)
  | replyOk (i : Nat) (text : String)
  | replyErr (i : Nat) (e : PyErr)
  | errorLogged (i : Nat) (e : PyErr)
deriving Repr, DecidableEq

/-- One iteration of QuibblerMCP._run_loop for item i: dequeue, start
the backend call (client.query), and on success consume the full
response and resolve the reply future with the collected text
(response_future.set_result); on an exception, the except branch sets
the exception on the reply future (response_future.set_exception). -/
def itemEventsMCP (backend : Nat → Except PyErr String) (i : Nat) : List LoopEvent :=
  match backend i with
  | Except.ok t =>
    [LoopEvent.dequeued i, LoopEvent.callStart i, LoopEvent.callEnd i,
     LoopEvent.replyOk i t]
  | Except.error e =>
    [LoopEvent.dequeued i, LoopEvent.callStart i, LoopEvent.replyErr i e]

/-- QuibblerMCP._run_loop on a finite queue of work items: each item is
processed to completion before the next is dequeued. -/
def runLoopMCP (backend : Nat → Except PyErr String) : List Nat → List LoopEvent
  | [] => []
  | i :: rest => itemEventsMCP backend i ++ runLoopMCP backend rest

/-- One iteration of QuibblerHook._run_loop for item i: dequeue, format
the event, start the backend call (_query_and_consume), and on success
consume the full response; an exception is caught and logged. -/
def itemEventsHook (backend : Nat → Except PyErr String) (i : Nat) : List LoopEvent :=
  match backend i with
  | Except.ok _ =>
    [LoopEvent.dequeued i, LoopEvent.callStart i, LoopEvent.callEnd i]
  | Except.error e =>
    [LoopEvent.dequeued i, LoopEvent.callStart i, LoopEvent.errorLogged i e]

/-- QuibblerHook._run_loop on a finite queue of hook events. -/
def runLoopHook (backend : Nat → Except PyErr String) : List Nat → List LoopEvent
  | [] => []
  | i :: rest => itemEventsHook backend i ++ runLoopHook backend rest

/-- Concrete test fixture: a backend oracle that fails on item 0 and
answers "fb" on every other item. -/
def mixedBackend : Nat → Except PyErr String :=
  fun i => if i = 0 then Except.error { msg := "boom" } else Except.ok "fb"

/-! ## iFlow agent loops (src/quibbler/iflow_agent.py lines 195-456)

IFlowQuibbler._query_iflow threads the shared ContextManager through a
backend call; IFlowQuibblerMCP._run and IFlowQuibblerHook._run are the
per-session consumer loops built on it.  The streaming chat completion
call (client.chat_completion plus chunk collection) is modelled as an
oracle from the transmitted message list to the collected response text
or a raised exception; summarization uses the separate simple_query
oracle as in create_summary. -/

/-- The configuration dataclass IFlowQuibblerConfig.  The temperature
field, a float forwarded verbatim to the API, plays no role in any
control flow and is omitted from the model. -/
structure IFlowQuibblerConfig where
  model : String := "claude-haiku-4-5"
  enable_auto_summary : Bool := true
  enable_smart_triggers : Bool := true
  max_tokens : Nat := 4096
deriving Repr, DecidableEq

/-- IFlowQuibbler._query_iflow: append the user message to the context,
compact when auto-summary is enabled and the threshold is exceeded, send
the system prompt followed by the rendered context, and on success
append the assistant reply and bump the review counter; an exception
from the chat call propagates to the caller with the context keeping the
user message (and any compaction) but no assistant reply. -/
def query_iflow (cfg : IFlowQuibblerConfig)
    (summarizer : String → String → Except PyErr String)
    (chat : List ChatMessage → Except PyErr String)
    (system_prompt user_message ts : String)
    (cm : ContextManager) : ContextManager × Except PyErr String :=
  let cm1 := cm.add_message "user" user_message ts
  let cm2 := if cfg.enable_auto_summary && cm1.should_summarize
             then cm1.create_summary summarizer else cm1
  let msgs : List ChatMessage :=
    { role := "system", content := system_prompt } :: cm2.get_context_messages
  match chat msgs with
  | Except.ok resp =>
    let cm3 := cm2.add_message "assistant" resp ts
    ({ cm3 with total_reviews := cm3.total_reviews + 1 }, Except.ok resp)
  | Except.error e => (cm2, Except.error e)

/-- IFlowQuibblerMCP._run: dequeue each review request in FIFO order,
process it with _query_iflow, and resolve that item's reply future with
the outcome (set_result on success, set_exception on failure); the
per-item try/except keeps the loop alive.  The returned list holds, in
queue order, the resolution delivered to each item's future. -/
def iflowMcpRunLoop (cfg : IFlowQuibblerConfig)
    (summarizer : String → String → Except PyErr String)
    (chat : List ChatMessage → Except PyErr String)
    (system_prompt ts : String) :
    List String → ContextManager → ContextManager × List (Except PyErr String)
  | [], cm => (cm, [])
  | req :: rest, cm =>
    let step := query_iflow cfg summarizer chat system_prompt req ts cm
    let next := iflowMcpRunLoop cfg summarizer chat system_prompt ts rest step.1
    (next.1, step.2 :: next.2)

/-- A hook event as consumed by the iFlow hook loop.  The field event
models evt.get("event"), tool_name models
evt.get("payload", dict()).get("tool_name"), received_at models
evt.get("received_at"), and pretty_json stands for the
json.dumps(evt, indent=2) rendering of the whole event, carried here as
an attribute of the event itself. -/
structure HookEvent where
  event : Option String := none
  tool_name : Option String := none
  received_at : Option String := none
  pretty_json : String := ""
deriving Repr, DecidableEq

/-- The critical_events set of IFlowQuibbler._should_process_event. -/
def criticalEvents : List String := ["PostToolUse", "Stop", "UserPromptSubmit"]

/-- The critical tool list of IFlowQuibbler._should_process_event. -/
def criticalTools : List String := ["Write", "Edit", "MultiEdit"]

/-- IFlowQuibbler._should_process_event, with the smart-trigger flag of
self.config passed explicitly. -/
def should_process_event (enable_smart_triggers : Bool) (evt : HookEvent) : Bool :=
  if !enable_smart_triggers then true
  else
    let event_type := evt.event.getD ""
    if event_type ∈ criticalEvents then true
    else
      let tool_name := evt.tool_name.getD ""
      if tool_name ∈ criticalTools then true
      else false

/-- IFlowQuibblerHook._format_event, with the wall-clock fallback
timestamp passed explicitly. -/
def format_iflow_event (now : String) (evt : HookEvent) : String :=
  "HOOK EVENT: " ++ evt.event.getD "UnknownEvent" ++ "\ntime: " ++
    evt.received_at.getD now ++ "\n\n```json\n" ++ evt.pretty_json ++ "\n```"

/-- IFlowQuibblerHook._run: dequeue each hook event in FIFO order, drop
it when _should_process_event rejects it (before any formatting, any
backend call and any touch of the context), and otherwise process it
with _query_iflow; errors are logged and the loop continues.  The
returned list holds the outcome of each processed event. -/
def iflowHookRunLoop (cfg : IFlowQuibblerConfig)
    (summarizer : String → String → Except PyErr String)
    (chat : List ChatMessage → Except PyErr String)
    (system_prompt ts : String) :
    List HookEvent → ContextManager → ContextManager × List (Except PyErr String)
  | [], cm => (cm, [])
  | evt :: rest, cm =>
    if should_process_event cfg.enable_smart_triggers evt then
      let step := query_iflow cfg summarizer chat system_prompt
        (format_iflow_event ts evt) ts cm
      let next := iflowHookRunLoop cfg summarizer chat system_prompt ts rest step.1
      (next.1, step.2 :: next.2)
    else
      iflowHookRunLoop cfg summarizer chat system_prompt ts rest cm

/-! ## Raw Bedrock backend client (src/quibbler/clients.py lines 66-292)

BedrockClient keeps the whole message array itself, declares read_file
and write_file tools, executes tool-use blocks locally against the file
system rooted at the session working directory, feeds the results back
as a user-role turn, and loops until a provider turn carries only text.
The provider (bedrock.invoke_model) is modelled as a script: the list of
successive content-block replies it returns.  The file system is
modelled as a set of directories plus a map from paths to contents;
paths are lists of components, and the model covers the relative-path
case of pathlib's cwd / file_path resolution. -/

/-- A file-system path as a list of components. -/
abbrev FsPath := List String

/-- A file system: existing directories and regular files.  Opening a
file for writing requires its parent directory to exist, as the OS
does; Path.mkdir(parents=True, exist_ok=True) creates every missing
ancestor. -/
structure Fs where
  dirs : List FsPath := []
  files : List (FsPath × String) := []
deriving Repr, DecidableEq

/-- The parent directory of a path. -/
def parentDir (p : FsPath) : FsPath := p.dropLast

/-- Path.mkdir(parents=True, exist_ok=True): the directory and all of
its ancestors exist afterwards. -/
def mkdirParents (fs : Fs) (d : FsPath) : Fs :=
  { fs with dirs := (List.range (d.length + 1)).map (fun k => d.take k) ++ fs.dirs }

/-- Opening a path for writing: fails with FileNotFoundError when the
parent directory does not exist, otherwise replaces the contents. -/
def fsWrite (fs : Fs) (p : FsPath) (content : String) : Except PyErr Fs :=
  if parentDir p ∈ fs.dirs then
    Except.ok { fs with
      files := (p, content) :: fs.files.filter (fun q => q.1 ≠ p) }
  else
    Except.error { msg := "FileNotFoundError" }

/-- Opening a path for reading: the stored contents, or
FileNotFoundError. -/
def fsRead (fs : Fs) (p : FsPath) : Except PyErr String :=
  match fs.files.find? (fun q => q.1 == p) with
  | some q => Except.ok q.2
  | none => Except.error { msg := "FileNotFoundError" }

/-- Rendering of a relative path for the tool-result message, joining
the components the way the incoming file_path string spelt them. -/
def renderPath (p : FsPath) : String := String.intercalate "/" p

/-- The parsed tool_input dictionary: tool_input.get("file_path", "")
and tool_input.get("content", ""). -/
structure ToolInput where
  file_path : FsPath := []
  content : String := ""
deriving Repr, DecidableEq

/-- BedrockClient._execute_tool: read_file reads cwd / file_path and
turns any exception into an error string; write_file creates the
missing parent directories of cwd / file_path, writes the contents, and
answers with a success string, turning any exception into an error
string; any other tool name answers an unknown-tool string.  Returns
the result string and the file system afterwards. -/
def execute_tool (cwd : FsPath) (fs : Fs) (tool_name : String)
    (tool_input : ToolInput) : String × Fs :=
  if tool_name = "read_file" then
    match fsRead fs (cwd ++ tool_input.file_path) with
    | Except.ok c => (c, fs)
    | Except.error e => ("Error reading file: " ++ e.msg, fs)
  else if tool_name = "write_file" then
    let full := cwd ++ tool_input.file_path
    let fs2 := mkdirParents fs (parentDir full)
    match fsWrite fs2 full tool_input.content with
    | Except.ok fs3 => ("Successfully wrote to " ++ renderPath tool_input.file_path, fs3)
    | Except.error e => ("Error writing file: " ++ e.msg, fs2)
  else
    ("Unknown tool: " ++ tool_name, fs)

/-- A content block of a provider reply: a text block, a tool_use
block, or a block of any other type (skipped by both filters). -/
inductive ContentBlock where
  | text (s : String)
  | toolUse (id : String) (name : String) (input : ToolInput)
  | other (tag : String)
deriving Repr, DecidableEq

/-- The type filter for tool_use blocks. -/
def isToolUse : ContentBlock → Bool
  | ContentBlock.toolUse _ _ _ => true
  | _ => false

/-- The text extracted from the text blocks of a reply. -/
def textsOf (blocks : List ContentBlock) : List String :=
  blocks.filterMap (fun b => match b with
    | ContentBlock.text s => some s
    | _ => none)

/-- A tool_result entry fed back to the provider. -/
structure ToolResult where
  tool_use_id : String
  content : String
deriving Repr, DecidableEq

/-- The content of one entry of the conversation_history array. -/
inductive MsgContent where
  | ofText (s : String)
  | ofBlocks (blocks : List ContentBlock)
  | ofToolResults (results : List ToolResult)
deriving Repr, DecidableEq

/-- One entry of the conversation_history array. -/
structure BMessage where
  role : String
  content : MsgContent
deriving Repr, DecidableEq

/-- BedrockClient.query: append the prompt as a user turn. -/
def bedrockQuery (history : List BMessage) (prompt : String) : List BMessage :=
  history ++ [{ role := "user", content := MsgContent.ofText prompt }]

/-- Execute the tool_use blocks of a reply in order, threading the file
system and collecting the tool_result entries. -/
def runToolBlocks (cwd : FsPath) : List ContentBlock → Fs → List ToolResult × Fs
  | [], fs => ([], fs)
  | ContentBlock.toolUse id name input :: rest, fs =>
    let r := execute_tool cwd fs name input
    let next := runToolBlocks cwd rest r.2
    ({ tool_use_id := id, content := r.1 } :: next.1, next.2)
  | _ :: rest, fs => runToolBlocks cwd rest fs

/-- The outcome of BedrockClient.receive_response: the texts yielded to
the caller, the conversation history and file system afterwards, and
how many tool executions took place. -/
structure ReceiveOutcome where
  yields : List (List String)
  history : List BMessage
  fs : Fs
  toolCalls : Nat
deriving Repr, DecidableEq

/-- BedrockClient.receive_response.  Each loop iteration consumes the
next scripted provider reply, appends it to the history as an assistant
turn, and either executes every tool_use block in it, appends the
results as a user-role turn and loops again, or, when the reply carries
no tool_use block, yields the text blocks (when any) and stops.  The
loop itself imposes no iteration cap: it runs as long as replies carry
tool_use blocks, and only an exhausted script (the provider failing to
reply) ends it abnormally. -/
def receive_response (cwd : FsPath) :
    List (List ContentBlock) → List BMessage → Fs → Except PyErr ReceiveOutcome
  | [], _, _ => Except.error { msg := "no provider reply" }
  | blocks :: script, history, fs =>
    let hist1 := history ++ [{ role := "assistant", content := MsgContent.ofBlocks blocks }]
    let tool_use_blocks := blocks.filter isToolUse
    if tool_use_blocks.isEmpty then
      let texts := textsOf blocks
      Except.ok { yields := if texts.isEmpty then [] else [texts],
                  history := hist1, fs := fs, toolCalls := 0 }
    else
      let run := runToolBlocks cwd tool_use_blocks fs
      let hist2 := hist1 ++
        [{ role := "user", content := MsgContent.ofToolResults run.1 }]
      match receive_response cwd script hist2 run.2 with
      | Except.ok out =>
        Except.ok { out with toolCalls := out.toolCalls + tool_use_blocks.length }
      | Except.error e => Except.error e

/-! ## MCP server registry (src/quibbler/mcp_server.py lines 26-139)

The module-level dict _quibblers maps a project path to its agent.
get_or_create_quibbler looks the path up and, on a miss, builds the
system prompt and configuration, constructs an agent, starts it and
inserts it.  The construction call at lines 40-45 passes the keyword
arguments system_prompt, source_path, model and mode to the dataclass
Quibbler of src/quibbler/agent.py, whose generated initializer accepts
only the declared fields system_prompt, source_path, model,
allowed_tools and mcp_servers (queue and task are init=False); Python
therefore raises TypeError for the unknown keyword mode before any
agent object exists.  We embed the keyword check of the generated
initializer and count constructions and starts in the registry state. -/

/-- The init parameters of the dataclass Quibbler
(src/quibbler/agent.py lines 107-118). -/
def quibblerInitFields : List String :=
  ["system_prompt", "source_path", "model", "allowed_tools", "mcp_servers"]

/-- The keyword arguments passed by get_or_create_quibbler
(src/quibbler/mcp_server.py lines 40-45). -/
def quibblerCallKwargs : List String :=
  ["system_prompt", "source_path", "model", "mode"]

/-- A Python call of a dataclass initializer: the first keyword argument
that is not an init parameter raises TypeError. -/
def dataclassCall (fields kwargs : List String) : Except PyErr Unit :=
  match kwargs.find? (fun k => !(fields.contains k)) with
  | some k => Except.error { msg := "TypeError: unexpected keyword argument " ++ k }
  | none => Except.ok ()

/-- The state of the mcp_server registry: the _quibblers dict (agents
numbered by creation), and how many agent constructions and start()
invocations have happened. -/
structure McpRegistry where
  table : List (String × Nat) := []
  constructed : Nat := 0
  started : Nat := 0
deriving Repr, DecidableEq

/-- get_or_create_quibbler of mcp_server.py: return the registered
agent on a hit; on a miss, build prompt and config (pure reads of the
environment), construct the agent — which raises TypeError because of
the mode keyword — and only then start and insert it. -/
def get_or_create_quibbler (project_path : String) (r : McpRegistry) :
    Except PyErr (McpRegistry × Nat) :=
  match r.table.find? (fun e => e.1 == project_path) with
  | some e => Except.ok (r, e.2)
  | none =>
    match dataclassCall quibblerInitFields quibblerCallKwargs with
    | Except.error e => Except.error e
    | Except.ok _ =>
      let agent := r.constructed
      Except.ok ({ table := (project_path, agent) :: r.table,
                   constructed := r.constructed + 1,
                   started := r.started + 1 }, agent)

/-- The truthiness test applied by call_tool to each argument:
arguments.get(...) gives None for a missing key, and
all([...]) rejects None and the empty string. -/
def truthyArg : Option String → Bool
  | none => false
  | some s => !(s == "")

/-- call_tool of mcp_server.py for the review_code tool: validate the
arguments, resolve the project's agent through get_or_create_quibbler
(which raises on every miss, see above), format the review request and
await quibbler.review.  Should a registry hit ever be reached, the
stored object is a base Quibbler, which has no review attribute, so
that path raises AttributeError. -/
def call_tool (name : String)
    (user_instructions agent_plan project_path : Option String)
    (r : McpRegistry) : Except PyErr (String × McpRegistry) :=
  if name ≠ "review_code" then
    Except.error { msg := "ValueError: Unknown tool: " ++ name }
  else if !(truthyArg user_instructions && truthyArg agent_plan &&
      truthyArg project_path) then
    Except.error { msg := "ValueError: Missing required arguments" }
  else
    match get_or_create_quibbler (project_path.getD "") r with
    | Except.error e => Except.error e
    | Except.ok _ =>
      Except.error { msg := "AttributeError: Quibbler has no attribute review" }

/-! ## Feedback display hook (src/quibbler/hook_display.py)

display_feedback reads the hook event from stdin, extracts the session
id (conversation_id for Cursor, session_id for Claude Code), looks for
cwd/.quibbler/SESSION_ID.txt, and when the file exists emits its whole
contents — as a JSON object with the single field followup_message on
stdout for Cursor, as plain text framed by separator lines on stderr
for Claude Code — deletes the file and exits with code 2; a missing
file (or missing input or session id) is a silent no-op with exit code
0.  Stdin is modelled as the already-parsed hook event (json.loads of
malformed input raises out of the function and is outside this model);
the Platform type comes from the module quibbler.types, absent from the
sources, and is modelled from the docstring as the two values cursor
and claude. -/

/-- The platform a feedback display runs under. -/
inductive Platform where
  | cursor
  | claude
deriving Repr, DecidableEq

/-- The fields display_feedback reads from the hook event. -/
structure DisplayHookEvent where
  session_id : Option String := none
  conversation_id : Option String := none
deriving Repr, DecidableEq

/-- One visible output of display_feedback: a line printed to stderr,
or a JSON object with the single field followup_message printed to
stdout. -/
inductive Emitted where
  | stderrLine (s : String)
  | stdoutFollowupJson (followup_message : String)
deriving Repr, DecidableEq

/-- The outcome of display_feedback: exit code, outputs in order, and
the feedback files afterwards. -/
structure DisplayOutcome where
  exit_code : Nat
  emitted : List Emitted
  files : List (String × String)
deriving Repr, DecidableEq

/-- The separator line: 80 equality signs. -/
def eq80 : String := String.mk (List.replicate 80 '=')

/-- display_feedback of hook_display.py.  The files argument is the set
of feedback files on disk as a path-to-contents map. -/
def display_feedback (platform : Platform) (hook_event : Option DisplayHookEvent)
    (cwd : String) (files : List (String × String)) : DisplayOutcome :=
  match hook_event with
  | none => { exit_code := 0, emitted := [], files := files }
  | some ev =>
    let sid? := match platform with
      | Platform.cursor => ev.conversation_id
      | Platform.claude => ev.session_id
    match sid? with
    | none => { exit_code := 0, emitted := [], files := files }
    | some sid =>
      if sid = "" then { exit_code := 0, emitted := [], files := files }
      else
        let path := cwd ++ "/.quibbler/" ++ sid ++ ".txt"
        match files.find? (fun e => e.1 == path) with
        | none => { exit_code := 0, emitted := [], files := files }
        | some entry =>
          let feedback := entry.2
          let emitted := match platform with
            | Platform.cursor =>
              [Emitted.stdoutFollowupJson ("QUIBBLER FEEDBACK\n\n" ++ feedback)]
            | Platform.claude =>
              [Emitted.stderrLine eq80, Emitted.stderrLine "QUIBBLER FEEDBACK",
               Emitted.stderrLine eq80, Emitted.stderrLine feedback,
               Emitted.stderrLine eq80]
          { exit_code := 2, emitted := emitted,
            files := files.filter (fun e => !(e.1 == path)) }

/-! ## iFlow hook registry under the cooperative scheduler
(src/quibbler/iflow_hook_server.py lines 39-86)

The iFlow hook server's get_or_create_quibbler is the registry
resolution that actually functions (its construction passes only
declared fields).  Its body is: look the session id up in the
_quibblers dict; on a miss, load the prompt and configuration
(synchronous file reads), construct IFlowQuibblerHook, await
quibbler.start(), and insert the agent into the dict.  The awaited
start() body (iflow_agent.py lines 216-229) contains no await at all —
load_iflow_auth and the IFlowClient constructor are synchronous and
asyncio.create_task only schedules — so awaiting it enters the
coroutine and returns without ever yielding to the event loop.  Under
asyncio's cooperative scheduler another task can therefore only run
between whole resolution bodies, never inside one.

We model N concurrent resolutions of the same session id as explicit
micro-step programs driven by an adversarial schedule.  Each micro step
records whether it can suspend (none can, for the reason above), and
the scheduler may hand the single thread to another task only when the
current task has finished or suspended.  The theorems show every
complete schedule constructs exactly one agent, starts it exactly once,
and hands the same agent to every resolver. -/

/-- The shared registry state of the iFlow hook server: the _quibblers
dict (agents numbered by creation order) and how many constructions and
start() invocations have happened. -/
structure IflowRegistry where
  table : List (String × Nat) := []
  constructed : Nat := 0
  started : Nat := 0
deriving Repr, DecidableEq

/-- One task resolving the key: its program counter through the body of
get_or_create_quibbler (0 lookup, 1 load prompt and config, 2 construct
the agent, 3 start it, 4 insert and return, 5 finished), the local
variable holding the constructed agent, and the returned agent. -/
structure ResolveTask where
  pc : Nat := 0
  agent : Nat := 0
  result : Option Nat := none
deriving Repr, DecidableEq

/-- Whether a task has run to completion. -/
def taskDone (t : ResolveTask) : Bool := t.pc == 5

/-- Whether the micro step at a program counter can suspend (yield the
thread to the scheduler).  No step of the resolution body can: the
lookup, the config loading, the construction and the dict insertion are
synchronous, and the awaited start() coroutine contains no await. -/
def stepSuspends (pc : Nat) : Bool :=
  match pc with
  | 0 => false  -- _quibblers.get(session_id)
  | 1 => false  -- load_iflow_prompt, load_iflow_quibbler_config
  | 2 => false  -- IFlowQuibblerHook(...)
  | 3 => false  -- await quibbler.start(): no await inside start()
  | 4 => false  -- _quibblers[session_id] = quibbler
  | _ => false

/-- One micro step of a resolution task against the shared registry. -/
def microStep (key : String) (t : ResolveTask) (r : IflowRegistry) :
    ResolveTask × IflowRegistry :=
  match t.pc with
  | 0 =>
    match r.table.find? (fun e => e.1 == key) with
    | some e => ({ t with pc := 5, result := some e.2 }, r)
    | none => ({ t with pc := 1 }, r)
  | 1 => ({ t with pc := 2 }, r)
  | 2 => ({ t with pc := 3, agent := r.constructed },
          { r with constructed := r.constructed + 1 })
  | 3 => ({ t with pc := 4 }, { r with started := r.started + 1 })
  | 4 => ({ t with pc := 5, result := some t.agent },
          { r with table := (key, t.agent) :: r.table })
  | _ => (t, r)

/-- The whole system: n resolution tasks, the shared registry, and
which task, if any, currently holds the single thread without having
suspended or finished. -/
structure SchedState where
  n : Nat
  tasks : Nat → ResolveTask
  reg : IflowRegistry
  running : Option Nat

/-- N tasks all about to resolve the key against an empty registry. -/
def initState (n : Nat) : SchedState :=
  { n := n, tasks := fun _ => { }, reg := { }, running := none }

/-- Run a schedule, the list of task indices chosen by the scheduler.
A choice is valid only if the chosen task exists and is unfinished and
the thread is free or already held by that task; the thread is released
only when the step finishes the task or was a suspending one.  An
invalid choice aborts the run. -/
def runSched (key : String) : List Nat → SchedState → Option SchedState
  | [], s => some s
  | i :: rest, s =>
    if i < s.n ∧ taskDone (s.tasks i) = false ∧
        (s.running = none ∨ s.running = some i) then
      runSched key rest
        { n := s.n,
          tasks := Function.update s.tasks i (microStep key (s.tasks i) s.reg).1,
          reg := (microStep key (s.tasks i) s.reg).2,
          running :=
            if taskDone (microStep key (s.tasks i) s.reg).1 then none
            else if stepSuspends (s.tasks i).pc then none
            else some i }
    else none

/-- Registry phase before any agent exists: the table is empty, at most
the thread-holding task is inside the resolution body, and the
construction and start counters reflect exactly how far it has come. -/
def InvPre (s : SchedState) : Prop :=
  s.reg.table = [] ∧
  ((s.running = none ∧ s.reg.constructed = 0 ∧ s.reg.started = 0 ∧
      ∀ j, j < s.n → (s.tasks j).pc = 0) ∨
   (∃ i, i < s.n ∧ s.running = some i ∧
      (∀ j, j < s.n → j ≠ i → (s.tasks j).pc = 0) ∧
      (((s.tasks i).pc = 1 ∧ s.reg.constructed = 0 ∧ s.reg.started = 0) ∨
       ((s.tasks i).pc = 2 ∧ s.reg.constructed = 0 ∧ s.reg.started = 0) ∨
       ((s.tasks i).pc = 3 ∧ (s.tasks i).agent = 0 ∧
         s.reg.constructed = 1 ∧ s.reg.started = 0) ∨
       ((s.tasks i).pc = 4 ∧ (s.tasks i).agent = 0 ∧
         s.reg.constructed = 1 ∧ s.reg.started = 1))))

/-- Registry phase after the single agent exists: agent 0 is registered
under the key, one construction and one start have happened, no task is
inside the body, and every finished task resolved to agent 0. -/
def InvPost (key : String) (s : SchedState) : Prop :=
  s.reg.table = [(key, 0)] ∧ s.reg.constructed = 1 ∧ s.reg.started = 1 ∧
  s.running = none ∧
  ∀ j, j < s.n →
    (s.tasks j).pc = 0 ∨ ((s.tasks j).pc = 5 ∧ (s.tasks j).result = some 0)

/-- The system invariant. -/
def SchedInv (key : String) (s : SchedState) : Prop :=
  InvPre s ∨ InvPost key s

end Quibbler

namespace Quibbler

/-- Appending queues concatenates the MCP loop traces. -/
theorem runLoopMCP_append (b : Nat → Except PyErr String) (l1 l2 : List Nat) :
    runLoopMCP b (l1 ++ l2) = runLoopMCP b l1 ++ runLoopMCP b l2 := by
  induction l1 with
  | nil => simp [runLoopMCP]
  | cons i rest ih => simp [runLoopMCP, ih]

/-- Appending queues concatenates the hook loop traces. -/
theorem runLoopHook_append (b : Nat → Except PyErr String) (l1 l2 : List Nat) :
    runLoopHook b (l1 ++ l2) = runLoopHook b l1 ++ runLoopHook b l2 := by
  induction l1 with
  | nil => simp [runLoopHook]
  | cons i rest ih => simp [runLoopHook, ih]

/-- The callStart event of an item appears in its MCP iteration whether
the backend call succeeds or raises. -/
theorem callStart_sublist_itemEventsMCP (b : Nat → Except PyErr String) (j : Nat) :
    [LoopEvent.callStart j].Sublist (itemEventsMCP b j) := by
  rw [List.singleton_sublist]
  cases hb : b j <;> simp [itemEventsMCP, hb]

/-- The callStart event of an item appears in its hook iteration whether
the backend call succeeds or raises. -/
theorem callStart_sublist_itemEventsHook (b : Nat → Except PyErr String) (j : Nat) :
    [LoopEvent.callStart j].Sublist (itemEventsHook b j) := by
  rw [List.singleton_sublist]
  cases hb : b j <;> simp [itemEventsHook, hb]

/-- Every queued item is dequeued and has its backend call started by
the MCP loop, whatever happened to earlier items. -/
theorem mem_runLoopMCP_of_mem (b : Nat → Except PyErr String) {j : Nat}
    {qs : List Nat} (hj : j ∈ qs) :
    LoopEvent.dequeued j ∈ runLoopMCP b qs ∧
    LoopEvent.callStart j ∈ runLoopMCP b qs := by
  induction qs with
  | nil => cases hj
  | cons a rest ih =>
    rcases List.mem_cons.mp hj with h | h
    · subst h
      cases hb : b j <;> simp [runLoopMCP, itemEventsMCP, hb]
    · have := ih h
      constructor <;> exact List.mem_append_right _ (by tauto)

/-- Every queued item is dequeued and has its backend call started by
the hook loop, whatever happened to earlier items. -/
theorem mem_runLoopHook_of_mem (b : Nat → Except PyErr String) {j : Nat}
    {qs : List Nat} (hj : j ∈ qs) :
    LoopEvent.dequeued j ∈ runLoopHook b qs ∧
    LoopEvent.callStart j ∈ runLoopHook b qs := by
  induction qs with
  | nil => cases hj
  | cons a rest ih =>
    rcases List.mem_cons.mp hj with h | h
    · subst h
      cases hb : b j <;> simp [runLoopHook, itemEventsHook, hb]
    · have := ih h
      constructor <;> exact List.mem_append_right _ (by tauto)

/-- Claim C1: within one Session Agent, items are fully processed in
submission order.  If item i is enqueued before item j (the queue is
l1 ++ i :: (l2 ++ j :: l3)) and the backend call for i completes with
text t, then in the trace of both consumer loops the end of the call
for i (its response fully consumed) occurs strictly before the start of
the call for j. -/
theorem consumer_loop_fifo (b : Nat → Except PyErr String)
    (l1 l2 l3 : List Nat) (i j : Nat) (t : String)
    (hok : b i = Except.ok t) :
    [LoopEvent.callEnd i, LoopEvent.callStart j].Sublist
      (runLoopMCP b (l1 ++ i :: (l2 ++ j :: l3))) ∧
    [LoopEvent.callEnd i, LoopEvent.callStart j].Sublist
      (runLoopHook b (l1 ++ i :: (l2 ++ j :: l3))) := by
  constructor
  · have htr : runLoopMCP b (l1 ++ i :: (l2 ++ j :: l3)) =
        (runLoopMCP b l1 ++ itemEventsMCP b i) ++
          (runLoopMCP b l2 ++ (itemEventsMCP b j ++ runLoopMCP b l3)) := by
      rw [show (l1 ++ i :: (l2 ++ j :: l3)) =
        (l1 ++ [i]) ++ (l2 ++ ([j] ++ l3)) by simp]
      simp [runLoopMCP_append, runLoopMCP, List.append_assoc]
    rw [htr]
    have hA : [LoopEvent.callEnd i].Sublist (runLoopMCP b l1 ++ itemEventsMCP b i) := by
      refine List.Sublist.trans ?_ (List.sublist_append_right _ _)
      rw [List.singleton_sublist]
      simp [itemEventsMCP, hok]
    have hB : [LoopEvent.callStart j].Sublist
        (runLoopMCP b l2 ++ (itemEventsMCP b j ++ runLoopMCP b l3)) := by
      refine List.Sublist.trans ?_ (List.sublist_append_right _ _)
      exact List.Sublist.trans (callStart_sublist_itemEventsMCP b j)
        (List.sublist_append_left _ _)
    exact hA.append hB
  · have htr : runLoopHook b (l1 ++ i :: (l2 ++ j :: l3)) =
        (runLoopHook b l1 ++ itemEventsHook b i) ++
          (runLoopHook b l2 ++ (itemEventsHook b j ++ runLoopHook b l3)) := by
      rw [show (l1 ++ i :: (l2 ++ j :: l3)) =
        (l1 ++ [i]) ++ (l2 ++ ([j] ++ l3)) by simp]
      simp [runLoopHook_append, runLoopHook, List.append_assoc]
    rw [htr]
    have hA : [LoopEvent.callEnd i].Sublist (runLoopHook b l1 ++ itemEventsHook b i) := by
      refine List.Sublist.trans ?_ (List.sublist_append_right _ _)
      rw [List.singleton_sublist]
      simp [itemEventsHook, hok]
    have hB : [LoopEvent.callStart j].Sublist
        (runLoopHook b l2 ++ (itemEventsHook b j ++ runLoopHook b l3)) := by
      refine List.Sublist.trans ?_ (List.sublist_append_right _ _)
      exact List.Sublist.trans (callStart_sublist_itemEventsHook b j)
        (List.sublist_append_left _ _)
    exact hA.append hB

/-- Witness for C1: on the concrete queue 0, 1, 2 with a backend that
answers item 1, the call end for item 1 precedes the call start for
item 2 in both loop traces. -/
theorem consumer_loop_fifo_witness :
    [LoopEvent.callEnd 1, LoopEvent.callStart 2].Sublist
      (runLoopMCP mixedBackend ([0] ++ 1 :: ([] ++ 2 :: []))) ∧
    [LoopEvent.callEnd 1, LoopEvent.callStart 2].Sublist
      (runLoopHook mixedBackend ([0] ++ 1 :: ([] ++ 2 :: []))) :=
  consumer_loop_fifo mixedBackend [0] [] [] 1 2 "fb" rfl

/-- Claim C3: an exception while processing one item is caught at the
loop boundary.  In the MCP loop it is set on that item's reply future
and every later item is still dequeued and processed; in the hook loop
it is logged and every later item is still dequeued and processed; in
the iFlow MCP loop every queued item receives exactly one resolution,
in queue order, whatever the oracles do. -/
theorem consumer_loop_survives_errors (b : Nat → Except PyErr String)
    (l1 l2 : List Nat) (i : Nat) (e : PyErr)
    (herr : b i = Except.error e) :
    LoopEvent.replyErr i e ∈ runLoopMCP b (l1 ++ i :: l2) ∧
    (∀ j ∈ l2, LoopEvent.dequeued j ∈ runLoopMCP b (l1 ++ i :: l2) ∧
      LoopEvent.callStart j ∈ runLoopMCP b (l1 ++ i :: l2)) ∧
    LoopEvent.errorLogged i e ∈ runLoopHook b (l1 ++ i :: l2) ∧
    (∀ j ∈ l2, LoopEvent.dequeued j ∈ runLoopHook b (l1 ++ i :: l2) ∧
      LoopEvent.callStart j ∈ runLoopHook b (l1 ++ i :: l2)) ∧
    (∀ (cfg : IFlowQuibblerConfig) summarizer chat system_prompt ts
      (reqs : List String) (cm : ContextManager),
      (iflowMcpRunLoop cfg summarizer chat system_prompt ts reqs cm).2.length =
        reqs.length) := by
  refine ⟨?_, ?_, ?_, ?_, ?_⟩
  · rw [runLoopMCP_append]
    exact List.mem_append_right _ (by simp [runLoopMCP, itemEventsMCP, herr])
  · intro j hj
    exact mem_runLoopMCP_of_mem b (by simp [hj])
  · rw [runLoopHook_append]
    exact List.mem_append_right _ (by simp [runLoopHook, itemEventsHook, herr])
  · intro j hj
    exact mem_runLoopHook_of_mem b (by simp [hj])
  · intro cfg summarizer chat system_prompt ts reqs
    induction reqs with
    | nil => intro cm; simp [iflowMcpRunLoop]
    | cons r rest ih => intro cm; simp [iflowMcpRunLoop, ih]

/-- Witness for C3: on the concrete queue 0, 1 where the backend raises
on item 0, the loops record the failure for item 0 and still process
item 1, and a concrete two-request iFlow loop resolves both futures. -/
theorem consumer_loop_survives_errors_witness :
    LoopEvent.replyErr 0 { msg := "boom" } ∈ runLoopMCP mixedBackend ([] ++ 0 :: [1]) ∧
    LoopEvent.callStart 1 ∈ runLoopMCP mixedBackend ([] ++ 0 :: [1]) ∧
    LoopEvent.errorLogged 0 { msg := "boom" } ∈
      runLoopHook mixedBackend ([] ++ 0 :: [1]) ∧
    LoopEvent.callStart 1 ∈ runLoopHook mixedBackend ([] ++ 0 :: [1]) ∧
    (iflowMcpRunLoop { } failingSummarizer (fun _ => Except.ok "r") "sys" "ts"
      ["a", "b"] { }).2.length = 2 := by
  obtain ⟨h1, h2, h3, h4, h5⟩ :=
    consumer_loop_survives_errors mixedBackend [] [1] 0 { msg := "boom" } rfl
  exact ⟨h1, (h2 1 (by simp)).2, h3, (h4 1 (by simp)).2,
    h5 { } failingSummarizer (fun _ => Except.ok "r") "sys" "ts" ["a", "b"] { }⟩

end Quibbler

namespace Quibbler

/-- Claim C4: if the summarizer call made during compaction raises, then
create_summary leaves the stored message list unchanged in both length
and content, and leaves the rolling summary unchanged as well. -/
theorem create_summary_fail_open
    (cm : ContextManager) (f : String → String → Except PyErr String) (e : PyErr)
    (h : f SUMMARIZER_SYSTEM_PROMPT
        (mkSummaryPrompt cm.summary
          (cm.messages.take (cm.messages.length - KEEP_RECENT_MESSAGES))) =
      Except.error e) :
    (cm.create_summary f).messages = cm.messages ∧
    (cm.create_summary f).messages.length = cm.messages.length ∧
    (cm.create_summary f).summary = cm.summary := by
  unfold ContextManager.create_summary
  by_cases hs : cm.should_summarize
  · simp [hs, h]
  · simp [hs]

/-- Witness for C4: a concrete 16-message context compacted with an
always-raising summarizer keeps its messages and summary. -/
theorem create_summary_fail_open_witness :
    (sampleCm.create_summary failingSummarizer).messages = sampleCm.messages ∧
    (sampleCm.create_summary failingSummarizer).messages.length =
      sampleCm.messages.length ∧
    (sampleCm.create_summary failingSummarizer).summary = sampleCm.summary :=
  create_summary_fail_open sampleCm failingSummarizer { msg := "boom" } rfl

/-- Claim C5: when the turn count exceeds the threshold, a successful
compaction keeps exactly the former last KEEP_RECENT_MESSAGES messages in
order, stores exactly the summarizer's output as the new summary, and any
pre-existing summary text appears verbatim in the prompt handed to the
summarizer; when the threshold is not exceeded, compaction is the
identity. -/
theorem create_summary_success
    (cm : ContextManager) (f : String → String → Except PyErr String) (s : String) :
    (cm.messages.length ≤ MAX_MESSAGES_BEFORE_SUMMARY → cm.create_summary f = cm) ∧
    (cm.messages.length > MAX_MESSAGES_BEFORE_SUMMARY →
      f SUMMARIZER_SYSTEM_PROMPT
          (mkSummaryPrompt cm.summary
            (cm.messages.take (cm.messages.length - KEEP_RECENT_MESSAGES))) =
        Except.ok s →
      (cm.create_summary f).messages =
          cm.messages.drop (cm.messages.length - KEEP_RECENT_MESSAGES) ∧
      (cm.create_summary f).messages.length = KEEP_RECENT_MESSAGES ∧
      (cm.create_summary f).summary = some s ∧
      (∀ t, cm.summary = some t →
        containsStr
          (mkSummaryPrompt cm.summary
            (cm.messages.take (cm.messages.length - KEEP_RECENT_MESSAGES))) t)) := by
  constructor
  · intro hle
    have hs : cm.should_summarize = false := by
      simp only [ContextManager.should_summarize, decide_eq_false_iff_not, not_lt]
      exact hle
    unfold ContextManager.create_summary
    simp [hs]
  · intro hgt hok
    have hs : cm.should_summarize = true := by
      simp only [ContextManager.should_summarize, decide_eq_true_eq]
      exact hgt
    refine ⟨?_, ?_, ?_, ?_⟩
    · unfold ContextManager.create_summary
      simp [hs, hok]
    · unfold ContextManager.create_summary
      simp only [hs, if_true, hok, List.length_drop]
      have h5 : KEEP_RECENT_MESSAGES = 5 := rfl
      have h15 : MAX_MESSAGES_BEFORE_SUMMARY = 15 := rfl
      rw [h15] at hgt
      omega
    · unfold ContextManager.create_summary
      simp [hs, hok]
    · intro t ht
      by_cases htt : t = ""
      · exact ⟨"", mkSummaryPrompt cm.summary
          (cm.messages.take (cm.messages.length - KEEP_RECENT_MESSAGES)), by
            simp [htt]⟩
      · refine ⟨summaryPromptHead,
          "\n\nNew conversation to summarize:\n" ++
            (renderOldConversation
              (cm.messages.take (cm.messages.length - KEEP_RECENT_MESSAGES)) ++
              summaryPromptTail), ?_⟩
        simp [mkSummaryPrompt, previousSummaryText, ht, htt]

/-- Witness for C5: a concrete 16-message context with summary S0
compacted with a summarizer answering S1 keeps the last five messages and
stores S1; the old summary S0 occurs verbatim in the summarizer prompt. -/
theorem create_summary_success_witness :
    (sampleCm.create_summary okSummarizer).messages =
        sampleCm.messages.drop (sampleCm.messages.length - KEEP_RECENT_MESSAGES) ∧
    (sampleCm.create_summary okSummarizer).messages.length = KEEP_RECENT_MESSAGES ∧
    (sampleCm.create_summary okSummarizer).summary = some "S1" ∧
    containsStr
      (mkSummaryPrompt sampleCm.summary
        (sampleCm.messages.take
          (sampleCm.messages.length - KEEP_RECENT_MESSAGES))) "S0" := by
  obtain ⟨h1, h2, h3, h4⟩ :=
    (create_summary_success sampleCm okSummarizer "S1").2 (by decide) rfl
  exact ⟨h1, h2, h3, h4 "S0" rfl⟩

end Quibbler

namespace Quibbler

/-- Helper fact: a freshly created directory chain contains the target
directory. -/
theorem mem_mkdirParents (fs : Fs) (d : FsPath) : d ∈ (mkdirParents fs d).dirs := by
  unfold mkdirParents
  refine List.mem_append_left _ (List.mem_map.mpr ⟨d.length, ?_, List.take_length d⟩)
  simp

/-- Claim C10: a write_file tool call resolves the path against the
session working directory, creates every missing parent directory
first, and therefore succeeds with the success string even when the
target subdirectory did not yet exist, leaving the file stored with the
requested contents. -/
theorem write_file_creates_parents (cwd : FsPath) (fs : Fs) (input : ToolInput)
    (h : parentDir (cwd ++ input.file_path) ∉ fs.dirs) :
    (execute_tool cwd fs "write_file" input).1 =
      "Successfully wrote to " ++ renderPath input.file_path ∧
    (cwd ++ input.file_path, input.content) ∈
      (execute_tool cwd fs "write_file" input).2.files ∧
    parentDir (cwd ++ input.file_path) ∈
      (execute_tool cwd fs "write_file" input).2.dirs := by
  have hparent : parentDir (cwd ++ input.file_path) ∈
      (mkdirParents fs (parentDir (cwd ++ input.file_path))).dirs :=
    mem_mkdirParents fs _
  unfold execute_tool
  simp only [if_neg (by decide : ¬ ("write_file" = "read_file")), if_pos rfl]
  unfold fsWrite
  simp only [if_pos hparent]
  refine ⟨rfl, List.mem_cons_self _ _, ?_⟩
  simpa using hparent

/-- Witness for C10: writing sub/new.txt under cwd proj into a file
system that has no directories at all succeeds, creates proj/sub, and
stores the file. -/
theorem write_file_creates_parents_witness :
    (execute_tool ["proj"] { dirs := [], files := [] } "write_file"
        { file_path := ["sub", "new.txt"], content := "hello" }).1 =
      "Successfully wrote to " ++ renderPath ["sub", "new.txt"] ∧
    (["proj"] ++ ["sub", "new.txt"], "hello") ∈
      (execute_tool ["proj"] { dirs := [], files := [] } "write_file"
        { file_path := ["sub", "new.txt"], content := "hello" }).2.files ∧
    parentDir (["proj"] ++ ["sub", "new.txt"]) ∈
      (execute_tool ["proj"] { dirs := [], files := [] } "write_file"
        { file_path := ["sub", "new.txt"], content := "hello" }).2.dirs :=
  write_file_creates_parents ["proj"] { dirs := [], files := [] }
    { file_path := ["sub", "new.txt"], content := "hello" } (by decide)

/-- Claim C6: on a scripted conversation whose first reply is a single
tool_use block and whose second reply is a single text block, the raw
backend loop executes the requested tool exactly once, feeds the tool
result back as a new user-role turn in the conversation history, and
yields exactly the second reply's text; and the loop has no iteration
cap of its own: a script of k consecutive tool_use replies followed by
a text reply drives k tool executions before the text is yielded, for
every k. -/
theorem bedrock_tool_loop (cwd : FsPath) (fs : Fs) (history : List BMessage)
    (id name : String) (input : ToolInput) (t : String) :
    receive_response cwd
        [[ContentBlock.toolUse id name input], [ContentBlock.text t]] history fs =
      Except.ok
        { yields := [[t]],
          history := history ++
            [{ role := "assistant",
               content := MsgContent.ofBlocks [ContentBlock.toolUse id name input] },
             { role := "user",
               content := MsgContent.ofToolResults
                 [{ tool_use_id := id,
                    content := (execute_tool cwd fs name input).1 }] },
             { role := "assistant",
               content := MsgContent.ofBlocks [ContentBlock.text t] }],
          fs := (execute_tool cwd fs name input).2,
          toolCalls := 1 } ∧
    (∀ (k : Nat) (hist0 : List BMessage) (fs0 : Fs), ∃ out : ReceiveOutcome,
      receive_response cwd
          (List.replicate k [ContentBlock.toolUse id name input] ++
            [[ContentBlock.text t]]) hist0 fs0 =
        Except.ok out ∧ out.yields = [[t]] ∧ out.toolCalls = k) := by
  constructor
  · simp [receive_response, runToolBlocks, textsOf, isToolUse, List.append_assoc]
  · intro k
    induction k with
    | zero =>
      intro hist0 fs0
      refine ⟨{ yields := [[t]],
                history := hist0 ++
                  [{ role := "assistant",
                     content := MsgContent.ofBlocks [ContentBlock.text t] }],
                fs := fs0, toolCalls := 0 }, ?_, rfl, rfl⟩
      simp [receive_response, textsOf, isToolUse]
    | succ m ih =>
      intro hist0 fs0
      obtain ⟨out, hout, hy, hc⟩ := ih
        (hist0 ++
          [{ role := "assistant",
             content := MsgContent.ofBlocks [ContentBlock.toolUse id name input] },
           { role := "user",
             content := MsgContent.ofToolResults
               [{ tool_use_id := id,
                  content := (execute_tool cwd fs0 name input).1 }] }])
        (execute_tool cwd fs0 name input).2
      refine ⟨{ out with toolCalls := out.toolCalls + 1 }, ?_, hy, by simp [hc]⟩
      simp only [List.replicate_succ, List.cons_append, receive_response,
        runToolBlocks, isToolUse, List.filter, List.isEmpty_cons,
        Bool.false_eq_true, if_false, List.append_assoc, List.append_eq,
        List.nil_append]
      rw [hout]
      simp

/-- Witness for C6: a concrete scripted conversation — one write_file
tool_use reply, then a text reply — yields exactly the text with one
tool execution, and a script of two consecutive tool_use replies drives
two tool executions. -/
theorem bedrock_tool_loop_witness :
    receive_response ["proj"]
        [[ContentBlock.toolUse "t1" "write_file"
            { file_path := ["a.txt"], content := "hi" }],
         [ContentBlock.text "done"]] [] { dirs := [], files := [] } =
      Except.ok
        { yields := [["done"]],
          history :=
            ([] : List BMessage) ++
            [{ role := "assistant",
               content := MsgContent.ofBlocks
                 [ContentBlock.toolUse "t1" "write_file"
                   { file_path := ["a.txt"], content := "hi" }] },
             { role := "user",
               content := MsgContent.ofToolResults
                 [{ tool_use_id := "t1",
                    content := (execute_tool ["proj"] { dirs := [], files := [] }
                      "write_file" { file_path := ["a.txt"], content := "hi" }).1 }] },
             { role := "assistant",
               content := MsgContent.ofBlocks [ContentBlock.text "done"] }],
          fs := (execute_tool ["proj"] { dirs := [], files := [] } "write_file"
            { file_path := ["a.txt"], content := "hi" }).2,
          toolCalls := 1 } ∧
    (receive_response ["proj"]
        (List.replicate 2
            [ContentBlock.toolUse "t1" "write_file"
              { file_path := ["a.txt"], content := "hi" }] ++
          [[ContentBlock.text "done"]]) [] { dirs := [], files := [] }).map
        (fun o => (o.yields, o.toolCalls)) =
      Except.ok ([["done"]], 2) := by
  obtain ⟨h1, h2⟩ := bedrock_tool_loop ["proj"] { dirs := [], files := [] } []
    "t1" "write_file" { file_path := ["a.txt"], content := "hi" } "done"
  refine ⟨h1, ?_⟩
  obtain ⟨out, hout, hy, hc⟩ := h2 2 [] { dirs := [], files := [] }
  rw [hout]
  simp [Except.map, hy, hc]

end Quibbler

namespace Quibbler

/-- Helper fact: constructing the agent with the keyword arguments of
mcp_server.py raises TypeError for the keyword mode. -/
theorem dataclassCall_quibbler_raises :
    dataclassCall quibblerInitFields quibblerCallKwargs =
      Except.error { msg := "TypeError: unexpected keyword argument mode" } := rfl

/-- Helper lemma shared by the registry and call_tool results: a
registry miss always raises the TypeError from the mode keyword. -/
theorem getOrCreate_miss_raises (project_path : String) (r : McpRegistry)
    (hmiss : r.table.find? (fun e => e.1 == project_path) = none) :
    get_or_create_quibbler project_path r =
      Except.error { msg := "TypeError: unexpected keyword argument mode" } := by
  unfold get_or_create_quibbler
  rw [hmiss, dataclassCall_quibbler_raises]

/-- Claim C2 (code bug): resolving a project path that is not yet
registered never constructs nor starts an agent — the construction at
mcp_server.py lines 40-45 raises TypeError for the unknown dataclass
keyword mode, so start() is invoked zero times, not exactly once, and
the resolution returns no agent instance. -/
theorem mcp_registry_resolution_raises (project_path : String) (r : McpRegistry)
    (hmiss : r.table.find? (fun e => e.1 == project_path) = none) :
    get_or_create_quibbler project_path r =
      Except.error { msg := "TypeError: unexpected keyword argument mode" } :=
  getOrCreate_miss_raises project_path r hmiss

/-- Witness for C2: the first resolution of /tmp/proj on the empty
registry raises the TypeError. -/
theorem mcp_registry_resolution_raises_witness :
    get_or_create_quibbler "/tmp/proj" { table := [], constructed := 0, started := 0 } =
      Except.error { msg := "TypeError: unexpected keyword argument mode" } :=
  mcp_registry_resolution_raises "/tmp/proj"
    { table := [], constructed := 0, started := 0 } rfl

/-- Claim C7 (code bug): a review_code call with all three arguments
present never returns feedback text: resolving the agent for an
unregistered project path raises the TypeError from the mode keyword,
so the review request is never formatted nor submitted. -/
theorem call_tool_never_returns_feedback
    (user_instructions agent_plan project_path : Option String) (r : McpRegistry)
    (hui : truthyArg user_instructions = true)
    (hap : truthyArg agent_plan = true)
    (hpp : truthyArg project_path = true)
    (hmiss : r.table.find? (fun e => e.1 == (project_path.getD "")) = none) :
    call_tool "review_code" user_instructions agent_plan project_path r =
      Except.error { msg := "TypeError: unexpected keyword argument mode" } := by
  unfold call_tool
  rw [getOrCreate_miss_raises (project_path.getD "") r hmiss]
  simp [hui, hap, hpp]

/-- Witness for C7: a concrete review_code call with all three
arguments present on a fresh registry raises the TypeError instead of
returning feedback. -/
theorem call_tool_never_returns_feedback_witness :
    call_tool "review_code" (some "add a test") (some "edit foo.py")
        (some "/tmp/proj") { table := [], constructed := 0, started := 0 } =
      Except.error { msg := "TypeError: unexpected keyword argument mode" } :=
  call_tool_never_returns_feedback (some "add a test") (some "edit foo.py")
    (some "/tmp/proj") { table := [], constructed := 0, started := 0 }
    rfl rfl rfl rfl

/-- Claim C8: when the per-session feedback file exists, display hook
emits its entire contents in the host-specific rendering (a JSON object
with the single followup_message field on stdout for Cursor, plain text
framed on stderr for Claude Code) and deletes the file; when the file
does not exist, it changes nothing and exits successfully with code 0. -/
theorem display_feedback_contract (platform : Platform) (ev : DisplayHookEvent)
    (cwd sid : String) (files : List (String × String))
    (hsid : (match platform with
             | Platform.cursor => ev.conversation_id
             | Platform.claude => ev.session_id) = some sid)
    (hne : sid ≠ "") :
    (∀ c, files.find?
        (fun e => e.1 == cwd ++ "/.quibbler/" ++ sid ++ ".txt") =
          some (cwd ++ "/.quibbler/" ++ sid ++ ".txt", c) →
      display_feedback platform (some ev) cwd files =
        { exit_code := 2,
          emitted := match platform with
            | Platform.cursor =>
              [Emitted.stdoutFollowupJson ("QUIBBLER FEEDBACK\n\n" ++ c)]
            | Platform.claude =>
              [Emitted.stderrLine eq80, Emitted.stderrLine "QUIBBLER FEEDBACK",
               Emitted.stderrLine eq80, Emitted.stderrLine c,
               Emitted.stderrLine eq80],
          files := files.filter
            (fun e => !(e.1 == cwd ++ "/.quibbler/" ++ sid ++ ".txt")) }) ∧
    (files.find? (fun e => e.1 == cwd ++ "/.quibbler/" ++ sid ++ ".txt") = none →
      display_feedback platform (some ev) cwd files =
        { exit_code := 0, emitted := [], files := files }) := by
  constructor
  · intro c hfind
    cases platform
    case cursor =>
      have hs : ev.conversation_id = some sid := by simpa using hsid
      simp only [display_feedback, hs, if_neg hne, hfind]
    case claude =>
      have hs : ev.session_id = some sid := by simpa using hsid
      simp only [display_feedback, hs, if_neg hne, hfind]
  · intro hfind
    cases platform
    case cursor =>
      have hs : ev.conversation_id = some sid := by simpa using hsid
      simp only [display_feedback, hs, if_neg hne, hfind]
    case claude =>
      have hs : ev.session_id = some sid := by simpa using hsid
      simp only [display_feedback, hs, if_neg hne, hfind]

/-- Witness for C8: a concrete Claude Code invocation with the feedback
file present emits the contents to stderr, deletes the file and exits
with code 2; with no feedback file it is a silent no-op with exit code
0. -/
theorem display_feedback_contract_witness :
    display_feedback Platform.claude (some { session_id := some "s1" }) "/w"
        [("/w/.quibbler/s1.txt", "fb")] =
      { exit_code := 2,
        emitted := [Emitted.stderrLine eq80, Emitted.stderrLine "QUIBBLER FEEDBACK",
          Emitted.stderrLine eq80, Emitted.stderrLine "fb", Emitted.stderrLine eq80],
        files := [] } ∧
    display_feedback Platform.claude (some { session_id := some "s1" }) "/w" [] =
      { exit_code := 0, emitted := [], files := [] } := by
  constructor
  · have h := (display_feedback_contract Platform.claude { session_id := some "s1" }
      "/w" "s1" [("/w/.quibbler/s1.txt", "fb")] rfl (by decide)).1 "fb" (by decide)
    rw [h]
    simp
  · exact (display_feedback_contract Platform.claude { session_id := some "s1" }
      "/w" "s1" [] rfl (by decide)).2 rfl

/-- Claim C9: with smart triggers enabled, running the iFlow hook loop
equals running it on only those events whose type is PostToolUse, Stop
or UserPromptSubmit or whose payload tool_name is Write, Edit or
MultiEdit — so every other event is discarded with no backend call and
no change to the context manager — and with smart triggers disabled no
event is filtered out. -/
theorem smart_trigger_filtering (cfg : IFlowQuibblerConfig)
    (summarizer : String → String → Except PyErr String)
    (chat : List ChatMessage → Except PyErr String)
    (system_prompt ts : String) (evts : List HookEvent) (cm : ContextManager) :
    iflowHookRunLoop cfg summarizer chat system_prompt ts evts cm =
      iflowHookRunLoop cfg summarizer chat system_prompt ts
        (evts.filter (should_process_event cfg.enable_smart_triggers)) cm ∧
    (cfg.enable_smart_triggers = false →
      evts.filter (should_process_event cfg.enable_smart_triggers) = evts) ∧
    (∀ evt, should_process_event true evt = true ↔
      (evt.event.getD "" ∈ criticalEvents ∨ evt.tool_name.getD "" ∈ criticalTools)) := by
  refine ⟨?_, ?_, ?_⟩
  · induction evts generalizing cm with
    | nil => simp [iflowHookRunLoop]
    | cons evt rest ih =>
      by_cases h : should_process_event cfg.enable_smart_triggers evt = true
      · simp only [iflowHookRunLoop, List.filter_cons, h, if_true, if_pos h]
        simp [iflowHookRunLoop, ih]
      · have hb : should_process_event cfg.enable_smart_triggers evt = false := by
          simpa using h
        simp only [iflowHookRunLoop, List.filter_cons, hb, Bool.false_eq_true,
          if_false]
        exact ih cm
  · intro hoff
    rw [List.filter_eq_self]
    intro evt _
    rw [hoff]
    rfl
  · intro evt
    by_cases h1 : evt.event.getD "" ∈ criticalEvents <;>
      by_cases h2 : evt.tool_name.getD "" ∈ criticalTools <;>
        simp [should_process_event, h1, h2]

/-- Witness for C9: with the default configuration, a PreToolUse Read
event is dropped (the run equals the run without it) while a
PostToolUse event is kept, and the smart-trigger predicate holds on the
latter and not on the former. -/
theorem smart_trigger_filtering_witness :
    iflowHookRunLoop { } failingSummarizer (fun _ => Except.ok "r") "sys" "ts"
        [{ event := some "PreToolUse", tool_name := some "Read" },
         { event := some "PostToolUse", tool_name := some "Read" }] { } =
      iflowHookRunLoop { } failingSummarizer (fun _ => Except.ok "r") "sys" "ts"
        ([{ event := some "PreToolUse", tool_name := some "Read" },
          { event := some "PostToolUse", tool_name := some "Read" }].filter
          (should_process_event (IFlowQuibblerConfig.enable_smart_triggers { }))) { } ∧
    (should_process_event true { event := some "PostToolUse", tool_name := some "Read" } ↔
      (HookEvent.event { event := some "PostToolUse", tool_name := some "Read" }).getD ""
          ∈ criticalEvents ∨
        (HookEvent.tool_name
            { event := some "PostToolUse", tool_name := some "Read" }).getD ""
          ∈ criticalTools) := by
  constructor
  · exact (smart_trigger_filtering { } failingSummarizer (fun _ => Except.ok "r")
      "sys" "ts" [{ event := some "PreToolUse", tool_name := some "Read" },
        { event := some "PostToolUse", tool_name := some "Read" }] { }).1
  · exact (smart_trigger_filtering { } failingSummarizer (fun _ => Except.ok "r")
      "sys" "ts" [] { }).2.2 { event := some "PostToolUse", tool_name := some "Read" }

end Quibbler

namespace Quibbler

/-- One valid scheduler choice preserves the system invariant. -/
theorem schedInv_step (key : String) (s : SchedState) (i : Nat)
    (hi : i < s.n) (hnd : taskDone (s.tasks i) = false)
    (hr : s.running = none ∨ s.running = some i)
    (hinv : SchedInv key s) :
    SchedInv key
      { n := s.n,
        tasks := Function.update s.tasks i (microStep key (s.tasks i) s.reg).1,
        reg := (microStep key (s.tasks i) s.reg).2,
        running :=
          if taskDone (microStep key (s.tasks i) s.reg).1 then none
          else if stepSuspends (s.tasks i).pc then none
          else some i } := by
  rcases hinv with ⟨htab, hcase⟩ | ⟨htab, hc, hs, hrn, hall⟩
  · rcases hcase with ⟨hrun0, hc0, hs0, hall⟩ | ⟨i0, hi0, hr0, hothers, hbr⟩
    · -- every task still at the lookup: the chosen one enters the body
      have hpci : (s.tasks i).pc = 0 := hall i hi
      have hms : microStep key (s.tasks i) s.reg =
          ({ s.tasks i with pc := 1 }, s.reg) := by
        simp [microStep, hpci, htab]
      rw [hms]
      left
      refine ⟨htab, Or.inr ⟨i, hi, ?_, ?_, Or.inl ⟨?_, hc0, hs0⟩⟩⟩
      · simp [taskDone, stepSuspends, hpci]
      · intro j hj hji
        simp only [Function.update_noteq hji]
        exact hall j hj
      · simp [Function.update_same]
    · -- a task is mid-body: the scheduler can only have chosen it
      have hii : i0 = i := by
        rcases hr with h | h
        · rw [hr0] at h; cases h
        · rw [hr0] at h; exact (Option.some.injEq _ _).mp h
      subst hii
      rcases hbr with ⟨hpc, hcc, hss⟩ | ⟨hpc, hcc, hss⟩ |
        ⟨hpc, hag, hcc, hss⟩ | ⟨hpc, hag, hcc, hss⟩
      · -- load prompt and config
        have hms : microStep key (s.tasks i0) s.reg =
            ({ s.tasks i0 with pc := 2 }, s.reg) := by
          simp [microStep, hpc]
        rw [hms]
        left
        refine ⟨htab, Or.inr ⟨i0, hi, ?_, ?_, Or.inr (Or.inl ⟨?_, hcc, hss⟩)⟩⟩
        · simp [taskDone, stepSuspends, hpc]
        · intro j hj hji
          simp only [Function.update_noteq hji]
          exact hothers j hj hji
        · simp [Function.update_same]
      · -- construct the agent
        have hms : microStep key (s.tasks i0) s.reg =
            ({ s.tasks i0 with pc := 3, agent := s.reg.constructed },
             { s.reg with constructed := s.reg.constructed + 1 }) := by
          simp [microStep, hpc]
        rw [hms]
        left
        refine ⟨htab, Or.inr ⟨i0, hi, ?_, ?_,
          Or.inr (Or.inr (Or.inl ⟨?_, ?_, ?_, hss⟩))⟩⟩
        · simp [taskDone, stepSuspends, hpc]
        · intro j hj hji
          simp only [Function.update_noteq hji]
          exact hothers j hj hji
        · simp [Function.update_same]
        · simp [Function.update_same, hcc]
        · simp [hcc]
      · -- start the agent
        have hms : microStep key (s.tasks i0) s.reg =
            ({ s.tasks i0 with pc := 4 },
             { s.reg with started := s.reg.started + 1 }) := by
          simp [microStep, hpc]
        rw [hms]
        left
        refine ⟨htab, Or.inr ⟨i0, hi, ?_, ?_,
          Or.inr (Or.inr (Or.inr ⟨?_, ?_, hcc, ?_⟩))⟩⟩
        · simp [taskDone, stepSuspends, hpc]
        · intro j hj hji
          simp only [Function.update_noteq hji]
          exact hothers j hj hji
        · simp [Function.update_same]
        · simp [Function.update_same, hag]
        · simp [hss]
      · -- insert the agent: the registry enters its final phase
        have hms : microStep key (s.tasks i0) s.reg =
            ({ s.tasks i0 with pc := 5, result := some (s.tasks i0).agent },
             { s.reg with table := (key, (s.tasks i0).agent) :: s.reg.table }) := by
          simp [microStep, hpc]
        rw [hms]
        right
        refine ⟨?_, hcc, hss, ?_, ?_⟩
        · simp [htab, hag]
        · simp [taskDone]
        · intro j hj
          by_cases hji : j = i0
          · subst hji
            right
            simp [Function.update_same, hag]
          · left
            simp only [Function.update_noteq hji]
            exact hothers j hj hji
  · -- the agent already exists: the chosen task hits the lookup
    have hpci : (s.tasks i).pc = 0 := by
      rcases hall i hi with h | h
      · exact h
      · exfalso
        rw [taskDone, h.1] at hnd
        cases hnd
    have hms : microStep key (s.tasks i) s.reg =
        ({ s.tasks i with pc := 5, result := some 0 }, s.reg) := by
      simp [microStep, hpci, htab, List.find?]
    rw [hms]
    right
    refine ⟨htab, hc, hs, ?_, ?_⟩
    · simp [taskDone]
    · intro j hj
      by_cases hji : j = i
      · subst hji
        right
        simp [Function.update_same]
      · simp only [Function.update_noteq hji]
        exact hall j hj

/-- Any run of any valid schedule preserves the invariant and the task
count. -/
theorem schedInv_runSched (key : String) (sched : List Nat) :
    ∀ (s final : SchedState), SchedInv key s →
      runSched key sched s = some final →
      SchedInv key final ∧ final.n = s.n := by
  induction sched with
  | nil =>
    intro s final hinv hrun
    rw [runSched] at hrun
    cases hrun
    exact ⟨hinv, rfl⟩
  | cons i rest ih =>
    intro s final hinv hrun
    rw [runSched] at hrun
    by_cases hcond : i < s.n ∧ taskDone (s.tasks i) = false ∧
        (s.running = none ∨ s.running = some i)
    · rw [if_pos hcond] at hrun
      have hih := ih _ final
        (schedInv_step key s i hcond.1 hcond.2.1 hcond.2.2 hinv) hrun
      exact ⟨hih.1, hih.2⟩
    · rw [if_neg hcond] at hrun
      cases hrun

/-- At-most-one-agent for the functioning (iFlow hook) registry: under
the cooperative scheduler, where a resolution body — which contains no
true suspension point — cannot be preempted, every complete interleaved
run of any number of concurrent resolutions of one session id
constructs exactly one agent, invokes start() on it exactly once,
registers exactly that agent under the key, and hands that same agent
to every resolver. -/
theorem iflow_registry_at_most_one_agent (key : String) (n : Nat) (hn : 0 < n)
    (sched : List Nat) (final : SchedState)
    (hrun : runSched key sched (initState n) = some final)
    (hdone : ∀ j, j < final.n → taskDone (final.tasks j) = true) :
    final.reg.constructed = 1 ∧ final.reg.started = 1 ∧
    final.reg.table = [(key, 0)] ∧
    (∀ j, j < final.n → (final.tasks j).result = some 0) := by
  have hinit : SchedInv key (initState n) :=
    Or.inl ⟨rfl, Or.inl ⟨rfl, rfl, rfl, fun j _ => rfl⟩⟩
  obtain ⟨hinv, hn2⟩ := schedInv_runSched key sched (initState n) final hinit hrun
  have hfn : 0 < final.n := by
    rw [hn2]
    exact hn
  rcases hinv with ⟨htab, hcase⟩ | ⟨htab, hc, hs, hrn, hall⟩
  · exfalso
    rcases hcase with ⟨hrun0, hc0, hs0, hall0⟩ | ⟨i0, hi0, hr0, hothers, hbr⟩
    · have hd := hdone 0 hfn
      rw [taskDone, hall0 0 hfn] at hd
      cases hd
    · have hd := hdone i0 hi0
      rcases hbr with ⟨hpc, _⟩ | ⟨hpc, _⟩ | ⟨hpc, _⟩ | ⟨hpc, _⟩ <;>
        rw [taskDone, hpc] at hd <;> cases hd
  · refine ⟨hc, hs, htab, ?_⟩
    intro j hj
    rcases hall j hj with h | h
    · exfalso
      have hd := hdone j hj
      rw [taskDone, h] at hd
      cases hd
    · exact h.2

/-- Sanity check: a concrete complete run — task 0 resolves through the
whole body, then tasks 1 and 2 each hit the lookup — ends with one
construction, one start, and all three resolvers holding agent 0. -/
theorem iflow_registry_concrete_run :
    (runSched "s1" [0, 0, 0, 0, 0, 1, 2] (initState 3)).map
        (fun s => (s.reg, s.running, s.tasks 0, s.tasks 1, s.tasks 2)) =
      some ({ table := [("s1", 0)], constructed := 1, started := 1 }, none,
        { pc := 5, agent := 0, result := some 0 },
        { pc := 5, agent := 0, result := some 0 },
        { pc := 5, agent := 0, result := some 0 }) := by
  rfl

/-- Sanity check: the scheduler cannot hand the thread to task 1 while
task 0 is inside the resolution body — the body has no suspension
point, so that schedule is invalid. -/
theorem iflow_registry_no_preemption :
    runSched "s1" [0, 1] (initState 2) = none := by
  rfl

end Quibbler
